import Mathlib

/-!
Shallow embedding of `src/Frame.cpp` (the ANARI-over-OSPRay render target,
class `anari::ospray::Frame`) together with theorems about its behaviour.

Modelling conventions:
* Native pointers and engine handles are `Nat`, with `0` playing the role of
  the null pointer (the code only tests handles for truthiness and passes
  them along).
* `ANARIDataType` is a C `typedef int`, so type tags are `Int` constants;
  the code only ever compares tags for equality, so the particular numeric
  codes below are irrelevant as long as they are pairwise distinct.
* The raw parameter pointer `mem` of `Frame::setParam` is read by the code
  under several type puns; structure `Mem` carries one field per view the
  code uses.  Per the ANARI convention, an `ANARI_VOID_POINTER` parameter
  carries the pointer value itself (`(void *)mem`), which is field `addr`.
* Calls into the OSPRay engine are recorded as an explicit trace
  (`List OspOp`), so statements about the order of engine calls are
  statements about that list.  Engine return values come from an abstract
  `OspEngine` record.  `float` results of engine queries are never computed
  with, only copied out, so they are abstracted to opaque `Nat` codes.
-/

/-- ANARI type tags (`typedef int ANARIDataType`).  Only equality of tags is
used by the code, so the codes are arbitrary but pairwise distinct. -/
def ANARI_FLOAT32 : Int := 12

def ANARI_FLOAT32_VEC3 : Int := 15

def ANARI_UINT32_VEC2 : Int := 22

def ANARI_DATA_TYPE : Int := 30

def ANARI_RENDERER : Int := 31

def ANARI_CAMERA : Int := 32

def ANARI_WORLD : Int := 33

def ANARI_FRAME_COMPLETION_CALLBACK : Int := 34

def ANARI_VOID_POINTER : Int := 35

/-- The `ANARI_WAIT` bit of the `flags` argument of `getProperty`. -/
def ANARI_WAIT : Nat := 1

/-- OSPRay frame-buffer channel bits (`OSP_FB_*`). -/
def OSP_FB_COLOR : Nat := 1

def OSP_FB_DEPTH : Nat := 2

def OSP_FB_ACCUM : Nat := 4

def OSP_FB_VARIANCE : Nat := 8

def OSP_FB_NORMAL : Nat := 16

def OSP_FB_ALBEDO : Nat := 32

/-- The raw `const void *mem` argument of `Frame::setParam`, with one field
per type pun the code performs on it.  `ints` is `*((const int *)mem + offs)`;
since `ANARIDataType` is `int`, the read `*(const ANARIDataType *)mem` is
`ints 0`.  `objHandle` is `*(Object **)mem`, `callback` is
`*(ANARIFrameCompletionCallback *)mem` (0 = null function pointer), and
`addr` is the pointer value `mem` itself. -/
structure Mem where
  addr : Nat
  ints : Nat → Int
  objHandle : Nat
  callback : Nat

/-- The mutable state of `anari::ospray::Frame`.  `m_object` is the engine
frame-buffer handle inherited from `Object`; `baseParams` models the generic
parameter store of the `Object` base class that `Object::setParam`
delegates into. -/
structure Frame where
  m_size_x : Int
  m_size_y : Int
  m_format : Int
  m_depthBuffer : Bool
  m_normalBuffer : Bool
  m_albedoBuffer : Bool
  m_reconstructOnCommit : Bool
  m_renderer : Nat
  m_camera : Nat
  m_world : Nat
  m_continuation : Nat
  m_continuationPtr : Nat
  m_future : Nat
  m_object : Nat
  baseParams : List (String × Int)
deriving DecidableEq, Repr

/-- One call into the OSPRay engine (or into the `Object` base class), as
recorded in the execution trace of an operation. -/
inductive OspOp where
  | release (h : Nat)
  | resetAccum (fb : Nat)
  | renderFrame (fb r c w : Nat) (result : Nat)
  | wait (f : Nat)
  | newFrameBuffer (x y : Int) (format : Int) (channels : Nat) (result : Nat)
  | mapFB (fb : Nat) (channel : Nat)
  | unmapFB (ptr : Nat) (fb : Nat)
  | getVariance (fb : Nat)
  | getTaskDuration (f : Nat)
  | getProgress (f : Nat)
  | refInc
  | threadStart
  | invoke (cb userData device frame : Nat)
  | refDec
  | baseCommit
  | baseGetProperty (name : String)
deriving DecidableEq, Repr

/-- Abstract OSPRay engine: return values of the engine entry points the
frame uses.  `handleOf` models `obj->handleAs<T>()` on a referenced scene
object (renderer/camera/world). -/
structure OspEngine where
  newFrameBuffer : Int → Int → Int → Nat → Nat
  renderFrame : Nat → Nat → Nat → Nat → Nat
  getTaskDuration : Nat → Nat
  getProgress : Nat → Nat
  getVariance : Nat → Nat
  mapFrameBuffer : Nat → Nat → Nat
  handleOf : Nat → Nat

/-- The legacy bare-channel-name rewriting performed (by identical inline
`if` chains) at the top of both `Frame::setParam` and `Frame::map`. -/
def legacyChannelName (id : String) : String :=
  if id = "color" then "channel.color"
  else if id = "depth" then "channel.depth"
  else if id = "normal" then "channel.normal"
  else if id = "albedo" then "channel.albedo"
  else id

/-- The dispatch chain of `Frame::setParam`, after the legacy rewrite has
produced `id` from the original name `origId` (the final delegation to
`Object::setParam` passes the original `_id`, not the rewritten one).
Returns the new state and the message of the `std::runtime_error` thrown,
if any; a throw happens before any member assignment in its branch, so on a
throw the state is returned unchanged. -/
def Frame.setParamDispatch (s : Frame) (origId id : String) (type : Int) (mem : Mem) :
    Frame × Option String :=
  if id = "size" ∧ type = ANARI_UINT32_VEC2 then
    ({ s with m_size_x := mem.ints 0, m_size_y := mem.ints 1,
              m_reconstructOnCommit := true }, none)
  else if id = "channel.color" ∧ type = ANARI_DATA_TYPE then
    ({ s with m_format := mem.ints 0, m_reconstructOnCommit := true }, none)
  else if id = "channel.depth" ∧ type = ANARI_DATA_TYPE then
    ({ s with m_depthBuffer := true, m_reconstructOnCommit := true }, none)
  else if id = "channel.albedo" ∧ type = ANARI_DATA_TYPE then
    (if mem.ints 0 = ANARI_FLOAT32_VEC3 then
      ({ s with m_albedoBuffer := true, m_reconstructOnCommit := true }, none)
    else (s, some "Unsupported albedo type."))
  else if id = "channel.normal" ∧ type = ANARI_DATA_TYPE then
    (if mem.ints 0 = ANARI_FLOAT32_VEC3 then
      ({ s with m_normalBuffer := true, m_reconstructOnCommit := true }, none)
    else (s, some "Unsupported normal type."))
  else if id = "renderer" ∧ type = ANARI_RENDERER then
    ({ s with m_renderer := mem.objHandle }, none)
  else if id = "camera" ∧ type = ANARI_CAMERA then
    ({ s with m_camera := mem.objHandle }, none)
  else if id = "world" ∧ type = ANARI_WORLD then
    ({ s with m_world := mem.objHandle }, none)
  else if id = "frameCompletionCallback" ∧ type = ANARI_FRAME_COMPLETION_CALLBACK then
    ({ s with m_continuation := mem.callback }, none)
  else if id = "frameCompletionCallbackUserData" ∧ type = ANARI_VOID_POINTER then
    ({ s with m_continuationPtr := mem.addr }, none)
  else
    ({ s with baseParams := (origId, type) :: s.baseParams }, none)

/-- `Frame::setParam`: rewrite legacy bare channel names, then dispatch. -/
def Frame.setParam (s : Frame) (origId : String) (type : Int) (mem : Mem) :
    Frame × Option String :=
  Frame.setParamDispatch s origId (legacyChannelName origId) type mem

/-- The channel mask computed inside `Frame::constructHandle`:
`OSP_FB_COLOR | OSP_FB_ACCUM | OSP_FB_VARIANCE` plus the enabled optional
channels. -/
def Frame.channels (s : Frame) : Nat :=
  let c := OSP_FB_COLOR ||| OSP_FB_ACCUM ||| OSP_FB_VARIANCE
  let c := if s.m_depthBuffer then c ||| OSP_FB_DEPTH else c
  let c := if s.m_normalBuffer then c ||| OSP_FB_NORMAL else c
  let c := if s.m_albedoBuffer then c ||| OSP_FB_ALBEDO else c
  c

/-- `Frame::constructHandle`: release the old frame-buffer handle, then
create a new one with the current size, format and channel mask. -/
def Frame.constructHandle (E : OspEngine) (s : Frame) : Frame × List OspOp :=
  let ch := Frame.channels s
  let h := E.newFrameBuffer s.m_size_x s.m_size_y s.m_format ch
  ({ s with m_object := h },
   [OspOp.release s.m_object,
    OspOp.newFrameBuffer s.m_size_x s.m_size_y s.m_format ch h])

/-- `Frame::commit`: reconstruct the buffer iff `m_reconstructOnCommit` is
set, clear the flag, then run `Object::commit`. -/
def Frame.commit (E : OspEngine) (s : Frame) : Frame × List OspOp :=
  if s.m_reconstructOnCommit then
    let r := Frame.constructHandle E s
    ({ r.1 with m_reconstructOnCommit := false }, r.2 ++ [OspOp.baseCommit])
  else (s, [OspOp.baseCommit])

/-- `Frame::render`: release the previous task handle, reset accumulation if
the device was modified, submit the render task, and if a completion
callback is registered wait for the task and run the notification thread
(whose body invokes the callback and then drops the extra reference). -/
def Frame.render (E : OspEngine) (dModified : Bool) (d self : Nat) (s : Frame) :
    Frame × List OspOp :=
  let fut := E.renderFrame s.m_object (E.handleOf s.m_renderer)
      (E.handleOf s.m_camera) (E.handleOf s.m_world)
  let pre := [OspOp.release s.m_future]
      ++ (if dModified then [OspOp.resetAccum s.m_object] else [])
      ++ [OspOp.renderFrame s.m_object (E.handleOf s.m_renderer)
            (E.handleOf s.m_camera) (E.handleOf s.m_world) fut]
  let post := if s.m_continuation ≠ 0 then
      [OspOp.wait fut, OspOp.refInc, OspOp.threadStart,
       OspOp.invoke s.m_continuation s.m_continuationPtr d self, OspOp.refDec]
    else []
  ({ s with m_future := fut }, pre ++ post)

/-- Result of a `Frame::getProperty` call: either the queried value was
memcpy'd to the output pointer and `true` returned, or the query fell
through to `Object::getProperty`. -/
inductive PropResult where
  | written (v : Nat)
  | base
deriving DecidableEq, Repr

/-- `Frame::getProperty`. -/
def Frame.getProperty (E : OspEngine) (s : Frame) (name : String) (type : Int)
    (flags : Nat) : PropResult × List OspOp :=
  if name = "duration" ∧ type = ANARI_FLOAT32 ∧ s.m_future ≠ 0 then
    (PropResult.written (E.getTaskDuration s.m_future),
     (if flags &&& ANARI_WAIT ≠ 0 then [OspOp.wait s.m_future] else [])
       ++ [OspOp.getTaskDuration s.m_future])
  else if name = "progress" ∧ type = ANARI_FLOAT32 ∧ s.m_future ≠ 0 then
    (PropResult.written (E.getProgress s.m_future),
     (if flags &&& ANARI_WAIT ≠ 0 then [OspOp.wait s.m_future] else [])
       ++ [OspOp.getProgress s.m_future])
  else if name = "variance" ∧ type = ANARI_FLOAT32 ∧ s.m_future ≠ 0 then
    (PropResult.written (E.getVariance s.m_object),
     (if flags &&& ANARI_WAIT ≠ 0 then [OspOp.wait s.m_future] else [])
       ++ [OspOp.getVariance s.m_object])
  else (PropResult.base, [OspOp.baseGetProperty name])

/-- Result of a `Frame::map` call: the returned pointer (`0` = `nullptr`)
and what, if anything, was written through each output parameter. -/
structure MapResult where
  ptr : Nat
  widthOut : Option Int
  heightOut : Option Int
  pixelTypeOut : Option Int
deriving DecidableEq, Repr

/-- `Frame::map`.  Note that the code writes `*width` and `*height` before
the channel-name dispatch, so they are written on every call. -/
def Frame.map (E : OspEngine) (s : Frame) (chanIn : String) :
    MapResult × List OspOp :=
  let fbh := s.m_object
  let w := some s.m_size_x
  let h := some s.m_size_y
  let channel := legacyChannelName chanIn
  if channel = "channel.color" then
    ({ ptr := E.mapFrameBuffer fbh OSP_FB_COLOR, widthOut := w, heightOut := h,
       pixelTypeOut := some s.m_format }, [OspOp.mapFB fbh OSP_FB_COLOR])
  else if channel = "channel.depth" then
    ({ ptr := E.mapFrameBuffer fbh OSP_FB_DEPTH, widthOut := w, heightOut := h,
       pixelTypeOut := some ANARI_FLOAT32 }, [OspOp.mapFB fbh OSP_FB_DEPTH])
  else if channel = "channel.albedo" then
    ({ ptr := E.mapFrameBuffer fbh OSP_FB_ALBEDO, widthOut := w, heightOut := h,
       pixelTypeOut := some ANARI_FLOAT32_VEC3 }, [OspOp.mapFB fbh OSP_FB_ALBEDO])
  else if channel = "channel.normal" then
    ({ ptr := E.mapFrameBuffer fbh OSP_FB_NORMAL, widthOut := w, heightOut := h,
       pixelTypeOut := some ANARI_FLOAT32_VEC3 }, [OspOp.mapFB fbh OSP_FB_NORMAL])
  else
    ({ ptr := 0, widthOut := w, heightOut := h, pixelTypeOut := none }, [])

/-- `Frame::unmap`. -/
def Frame.unmap (s : Frame) (ptr : Nat) : List OspOp :=
  [OspOp.unmapFB ptr s.m_object]

/-- The expected ANARI type tag for each parameter name recognized by the
specialized branches of `Frame::setParam` (after legacy rewriting). -/
def expectedType (id : String) : Option Int :=
  if id = "size" then some ANARI_UINT32_VEC2
  else if id = "channel.color" then some ANARI_DATA_TYPE
  else if id = "channel.depth" then some ANARI_DATA_TYPE
  else if id = "channel.albedo" then some ANARI_DATA_TYPE
  else if id = "channel.normal" then some ANARI_DATA_TYPE
  else if id = "renderer" then some ANARI_RENDERER
  else if id = "camera" then some ANARI_CAMERA
  else if id = "world" then some ANARI_WORLD
  else if id = "frameCompletionCallback" then some ANARI_FRAME_COMPLETION_CALLBACK
  else if id = "frameCompletionCallbackUserData" then some ANARI_VOID_POINTER
  else none

/-- One public operation on a frame, for stating invariants over arbitrary
call sequences. -/
inductive FrameOp where
  | setP (id : String) (type : Int) (mem : Mem)
  | commit
  | render (dModified : Bool) (d self : Nat)
  | map (channel : String)
  | unmap (ptr : Nat)
  | getProperty (name : String) (type : Int) (flags : Nat)

/-- State transition of one public operation.  `map`, `unmap` and
`getProperty` perform no member assignment in the source, so they leave the
state unchanged. -/
def Frame.step (E : OspEngine) (s : Frame) : FrameOp → Frame
  | FrameOp.setP id t m => (Frame.setParam s id t m).1
  | FrameOp.commit => (Frame.commit E s).1
  | FrameOp.render dm d self => (Frame.render E dm d self s).1
  | FrameOp.map _ => s
  | FrameOp.unmap _ => s
  | FrameOp.getProperty _ _ _ => s

/-- Run a sequence of public operations. -/
def Frame.run (E : OspEngine) (s : Frame) (ops : List FrameOp) : Frame :=
  ops.foldl (Frame.step E) s

/-- Whether a trace entry is a callback invocation. -/
def OspOp.isInvoke : OspOp → Bool
  | OspOp.invoke _ _ _ _ => true
  | _ => false

/-- A concrete engine instance used to evaluate the model on closed inputs. -/
def engineEx : OspEngine where
  newFrameBuffer := fun _ _ _ _ => 101
  renderFrame := fun _ _ _ _ => 77
  getTaskDuration := fun _ => 5
  getProgress := fun _ => 6
  getVariance := fun _ => 7
  mapFrameBuffer := fun _ _ => 55
  handleOf := fun n => n + 100

/-- A concrete frame state: 64 × 48, no optional channels, no pending
rebuild, scene references set, a completion callback registered, and no
task submitted yet (`m_future = 0`). -/
def frameEx : Frame where
  m_size_x := 64
  m_size_y := 48
  m_format := 3
  m_depthBuffer := false
  m_normalBuffer := false
  m_albedoBuffer := false
  m_reconstructOnCommit := false
  m_renderer := 1
  m_camera := 2
  m_world := 3
  m_continuation := 9
  m_continuationPtr := 0
  m_future := 0
  m_object := 11
  baseParams := []

/-- `frameEx` with a pending rebuild and all optional channels enabled. -/
def frameDirty : Frame :=
  { frameEx with m_reconstructOnCommit := true, m_depthBuffer := true,
                 m_normalBuffer := true, m_albedoBuffer := true }

/-- `frameEx` with an in-flight task handle. -/
def frameLive : Frame :=
  { frameEx with m_future := 31 }

/-- A concrete parameter payload. -/
def memEx : Mem where
  addr := 12345
  ints := fun _ => 0
  objHandle := 42
  callback := 9

/-- A concrete payload whose element-type word is `ANARI_FLOAT32`
(not a 3-component float vector). -/
def memBad : Mem where
  addr := 1
  ints := fun _ => ANARI_FLOAT32
  objHandle := 0
  callback := 0

/-- A concrete sequence of public operations touching every entry point. -/
def opsEx : List FrameOp :=
  [FrameOp.commit, FrameOp.render true 500 600, FrameOp.map "color",
   FrameOp.unmap 55, FrameOp.getProperty "progress" ANARI_FLOAT32 1,
   FrameOp.setP "size" ANARI_UINT32_VEC2 memEx, FrameOp.commit]

/-- A `setParam` call whose rewritten name is "size" but whose declared
type tag is not `ANARI_UINT32_VEC2` takes no specialized branch and is delegated to
the generic parameter store of the `Object` base class. -/
lemma setParamMismatch_size (s : Frame) (origId : String) (type : Int) (mem : Mem)
    (hid : legacyChannelName origId = "size") (ht : type ≠ ANARI_UINT32_VEC2) :
    Frame.setParam s origId type mem
      = ({ s with baseParams := (origId, type) :: s.baseParams }, none) := by
  unfold Frame.setParam
  rw [hid]
  unfold Frame.setParamDispatch
  rw [
    if_neg (fun hh => ht hh.2),
    if_neg (fun hh => absurd hh.1 (by decide)),
    if_neg (fun hh => absurd hh.1 (by decide)),
    if_neg (fun hh => absurd hh.1 (by decide)),
    if_neg (fun hh => absurd hh.1 (by decide)),
    if_neg (fun hh => absurd hh.1 (by decide)),
    if_neg (fun hh => absurd hh.1 (by decide)),
    if_neg (fun hh => absurd hh.1 (by decide)),
    if_neg (fun hh => absurd hh.1 (by decide)),
    if_neg (fun hh => absurd hh.1 (by decide))]

/-- A `setParam` call whose rewritten name is "channel.color" but whose declared
type tag is not `ANARI_DATA_TYPE` takes no specialized branch and is delegated to
the generic parameter store of the `Object` base class. -/
lemma setParamMismatch_color (s : Frame) (origId : String) (type : Int) (mem : Mem)
    (hid : legacyChannelName origId = "channel.color") (ht : type ≠ ANARI_DATA_TYPE) :
    Frame.setParam s origId type mem
      = ({ s with baseParams := (origId, type) :: s.baseParams }, none) := by
  unfold Frame.setParam
  rw [hid]
  unfold Frame.setParamDispatch
  rw [
    if_neg (fun hh => absurd hh.1 (by decide)),
    if_neg (fun hh => ht hh.2),
    if_neg (fun hh => absurd hh.1 (by decide)),
    if_neg (fun hh => absurd hh.1 (by decide)),
    if_neg (fun hh => absurd hh.1 (by decide)),
    if_neg (fun hh => absurd hh.1 (by decide)),
    if_neg (fun hh => absurd hh.1 (by decide)),
    if_neg (fun hh => absurd hh.1 (by decide)),
    if_neg (fun hh => absurd hh.1 (by decide)),
    if_neg (fun hh => absurd hh.1 (by decide))]

/-- A `setParam` call whose rewritten name is "channel.depth" but whose declared
type tag is not `ANARI_DATA_TYPE` takes no specialized branch and is delegated to
the generic parameter store of the `Object` base class. -/
lemma setParamMismatch_depth (s : Frame) (origId : String) (type : Int) (mem : Mem)
    (hid : legacyChannelName origId = "channel.depth") (ht : type ≠ ANARI_DATA_TYPE) :
    Frame.setParam s origId type mem
      = ({ s with baseParams := (origId, type) :: s.baseParams }, none) := by
  unfold Frame.setParam
  rw [hid]
  unfold Frame.setParamDispatch
  rw [
    if_neg (fun hh => absurd hh.1 (by decide)),
    if_neg (fun hh => absurd hh.1 (by decide)),
    if_neg (fun hh => ht hh.2),
    if_neg (fun hh => absurd hh.1 (by decide)),
    if_neg (fun hh => absurd hh.1 (by decide)),
    if_neg (fun hh => absurd hh.1 (by decide)),
    if_neg (fun hh => absurd hh.1 (by decide)),
    if_neg (fun hh => absurd hh.1 (by decide)),
    if_neg (fun hh => absurd hh.1 (by decide)),
    if_neg (fun hh => absurd hh.1 (by decide))]

/-- A `setParam` call whose rewritten name is "channel.albedo" but whose declared
type tag is not `ANARI_DATA_TYPE` takes no specialized branch and is delegated to
the generic parameter store of the `Object` base class. -/
lemma setParamMismatch_albedo (s : Frame) (origId : String) (type : Int) (mem : Mem)
    (hid : legacyChannelName origId = "channel.albedo") (ht : type ≠ ANARI_DATA_TYPE) :
    Frame.setParam s origId type mem
      = ({ s with baseParams := (origId, type) :: s.baseParams }, none) := by
  unfold Frame.setParam
  rw [hid]
  unfold Frame.setParamDispatch
  rw [
    if_neg (fun hh => absurd hh.1 (by decide)),
    if_neg (fun hh => absurd hh.1 (by decide)),
    if_neg (fun hh => absurd hh.1 (by decide)),
    if_neg (fun hh => ht hh.2),
    if_neg (fun hh => absurd hh.1 (by decide)),
    if_neg (fun hh => absurd hh.1 (by decide)),
    if_neg (fun hh => absurd hh.1 (by decide)),
    if_neg (fun hh => absurd hh.1 (by decide)),
    if_neg (fun hh => absurd hh.1 (by decide)),
    if_neg (fun hh => absurd hh.1 (by decide))]

/-- A `setParam` call whose rewritten name is "channel.normal" but whose declared
type tag is not `ANARI_DATA_TYPE` takes no specialized branch and is delegated to
the generic parameter store of the `Object` base class. -/
lemma setParamMismatch_normal (s : Frame) (origId : String) (type : Int) (mem : Mem)
    (hid : legacyChannelName origId = "channel.normal") (ht : type ≠ ANARI_DATA_TYPE) :
    Frame.setParam s origId type mem
      = ({ s with baseParams := (origId, type) :: s.baseParams }, none) := by
  unfold Frame.setParam
  rw [hid]
  unfold Frame.setParamDispatch
  rw [
    if_neg (fun hh => absurd hh.1 (by decide)),
    if_neg (fun hh => absurd hh.1 (by decide)),
    if_neg (fun hh => absurd hh.1 (by decide)),
    if_neg (fun hh => absurd hh.1 (by decide)),
    if_neg (fun hh => ht hh.2),
    if_neg (fun hh => absurd hh.1 (by decide)),
    if_neg (fun hh => absurd hh.1 (by decide)),
    if_neg (fun hh => absurd hh.1 (by decide)),
    if_neg (fun hh => absurd hh.1 (by decide)),
    if_neg (fun hh => absurd hh.1 (by decide))]

/-- A `setParam` call whose rewritten name is "renderer" but whose declared
type tag is not `ANARI_RENDERER` takes no specialized branch and is delegated to
the generic parameter store of the `Object` base class. -/
lemma setParamMismatch_renderer (s : Frame) (origId : String) (type : Int) (mem : Mem)
    (hid : legacyChannelName origId = "renderer") (ht : type ≠ ANARI_RENDERER) :
    Frame.setParam s origId type mem
      = ({ s with baseParams := (origId, type) :: s.baseParams }, none) := by
  unfold Frame.setParam
  rw [hid]
  unfold Frame.setParamDispatch
  rw [
    if_neg (fun hh => absurd hh.1 (by decide)),
    if_neg (fun hh => absurd hh.1 (by decide)),
    if_neg (fun hh => absurd hh.1 (by decide)),
    if_neg (fun hh => absurd hh.1 (by decide)),
    if_neg (fun hh => absurd hh.1 (by decide)),
    if_neg (fun hh => ht hh.2),
    if_neg (fun hh => absurd hh.1 (by decide)),
    if_neg (fun hh => absurd hh.1 (by decide)),
    if_neg (fun hh => absurd hh.1 (by decide)),
    if_neg (fun hh => absurd hh.1 (by decide))]

/-- A `setParam` call whose rewritten name is "camera" but whose declared
type tag is not `ANARI_CAMERA` takes no specialized branch and is delegated to
the generic parameter store of the `Object` base class. -/
lemma setParamMismatch_camera (s : Frame) (origId : String) (type : Int) (mem : Mem)
    (hid : legacyChannelName origId = "camera") (ht : type ≠ ANARI_CAMERA) :
    Frame.setParam s origId type mem
      = ({ s with baseParams := (origId, type) :: s.baseParams }, none) := by
  unfold Frame.setParam
  rw [hid]
  unfold Frame.setParamDispatch
  rw [
    if_neg (fun hh => absurd hh.1 (by decide)),
    if_neg (fun hh => absurd hh.1 (by decide)),
    if_neg (fun hh => absurd hh.1 (by decide)),
    if_neg (fun hh => absurd hh.1 (by decide)),
    if_neg (fun hh => absurd hh.1 (by decide)),
    if_neg (fun hh => absurd hh.1 (by decide)),
    if_neg (fun hh => ht hh.2),
    if_neg (fun hh => absurd hh.1 (by decide)),
    if_neg (fun hh => absurd hh.1 (by decide)),
    if_neg (fun hh => absurd hh.1 (by decide))]

/-- A `setParam` call whose rewritten name is "world" but whose declared
type tag is not `ANARI_WORLD` takes no specialized branch and is delegated to
the generic parameter store of the `Object` base class. -/
lemma setParamMismatch_world (s : Frame) (origId : String) (type : Int) (mem : Mem)
    (hid : legacyChannelName origId = "world") (ht : type ≠ ANARI_WORLD) :
    Frame.setParam s origId type mem
      = ({ s with baseParams := (origId, type) :: s.baseParams }, none) := by
  unfold Frame.setParam
  rw [hid]
  unfold Frame.setParamDispatch
  rw [
    if_neg (fun hh => absurd hh.1 (by decide)),
    if_neg (fun hh => absurd hh.1 (by decide)),
    if_neg (fun hh => absurd hh.1 (by decide)),
    if_neg (fun hh => absurd hh.1 (by decide)),
    if_neg (fun hh => absurd hh.1 (by decide)),
    if_neg (fun hh => absurd hh.1 (by decide)),
    if_neg (fun hh => absurd hh.1 (by decide)),
    if_neg (fun hh => ht hh.2),
    if_neg (fun hh => absurd hh.1 (by decide)),
    if_neg (fun hh => absurd hh.1 (by decide))]

/-- A `setParam` call whose rewritten name is "frameCompletionCallback" but whose declared
type tag is not `ANARI_FRAME_COMPLETION_CALLBACK` takes no specialized branch and is delegated to
the generic parameter store of the `Object` base class. -/
lemma setParamMismatch_callback (s : Frame) (origId : String) (type : Int) (mem : Mem)
    (hid : legacyChannelName origId = "frameCompletionCallback") (ht : type ≠ ANARI_FRAME_COMPLETION_CALLBACK) :
    Frame.setParam s origId type mem
      = ({ s with baseParams := (origId, type) :: s.baseParams }, none) := by
  unfold Frame.setParam
  rw [hid]
  unfold Frame.setParamDispatch
  rw [
    if_neg (fun hh => absurd hh.1 (by decide)),
    if_neg (fun hh => absurd hh.1 (by decide)),
    if_neg (fun hh => absurd hh.1 (by decide)),
    if_neg (fun hh => absurd hh.1 (by decide)),
    if_neg (fun hh => absurd hh.1 (by decide)),
    if_neg (fun hh => absurd hh.1 (by decide)),
    if_neg (fun hh => absurd hh.1 (by decide)),
    if_neg (fun hh => absurd hh.1 (by decide)),
    if_neg (fun hh => ht hh.2),
    if_neg (fun hh => absurd hh.1 (by decide))]

/-- A `setParam` call whose rewritten name is "frameCompletionCallbackUserData" but whose declared
type tag is not `ANARI_VOID_POINTER` takes no specialized branch and is delegated to
the generic parameter store of the `Object` base class. -/
lemma setParamMismatch_userData (s : Frame) (origId : String) (type : Int) (mem : Mem)
    (hid : legacyChannelName origId = "frameCompletionCallbackUserData") (ht : type ≠ ANARI_VOID_POINTER) :
    Frame.setParam s origId type mem
      = ({ s with baseParams := (origId, type) :: s.baseParams }, none) := by
  unfold Frame.setParam
  rw [hid]
  unfold Frame.setParamDispatch
  rw [
    if_neg (fun hh => absurd hh.1 (by decide)),
    if_neg (fun hh => absurd hh.1 (by decide)),
    if_neg (fun hh => absurd hh.1 (by decide)),
    if_neg (fun hh => absurd hh.1 (by decide)),
    if_neg (fun hh => absurd hh.1 (by decide)),
    if_neg (fun hh => absurd hh.1 (by decide)),
    if_neg (fun hh => absurd hh.1 (by decide)),
    if_neg (fun hh => absurd hh.1 (by decide)),
    if_neg (fun hh => absurd hh.1 (by decide)),
    if_neg (fun hh => ht hh.2)]

/-- Claim C1: setting "frameCompletionCallbackUserData" with type
`ANARI_VOID_POINTER` stores the opaque user pointer carried by the call
(the `mem` pointer value itself, per the ANARI void-pointer convention) in
`m_continuationPtr`, without error and without touching anything else; and
a subsequently fired completion callback receives exactly that stored value
as its first (userData) argument. -/
theorem frame_C1 (s : Frame) (mem : Mem) (E : OspEngine) (dm : Bool) (d self : Nat)
    (hcb : s.m_continuation ≠ 0) :
    Frame.setParam s "frameCompletionCallbackUserData" ANARI_VOID_POINTER mem
      = ({ s with m_continuationPtr := mem.addr }, none)
    ∧ OspOp.invoke s.m_continuation mem.addr d self
        ∈ (Frame.render E dm d self
            (Frame.setParam s "frameCompletionCallbackUserData" ANARI_VOID_POINTER mem).1).2 := by
  have hset : Frame.setParam s "frameCompletionCallbackUserData" ANARI_VOID_POINTER mem
      = ({ s with m_continuationPtr := mem.addr }, none) := by
    unfold Frame.setParam
    rw [show legacyChannelName "frameCompletionCallbackUserData"
        = "frameCompletionCallbackUserData" from rfl]
    unfold Frame.setParamDispatch
    rw [if_neg (by decide), if_neg (by decide), if_neg (by decide), if_neg (by decide),
      if_neg (by decide), if_neg (by decide), if_neg (by decide), if_neg (by decide),
      if_neg (by decide), if_pos (by decide)]
  refine ⟨hset, ?_⟩
  rw [hset]
  cases dm <;> simp [Frame.render, hcb]

/-- Witness for C1 at concrete inputs. -/
theorem frame_C1_witness :
    frameEx.m_continuation ≠ 0
    ∧ (Frame.setParam frameEx "frameCompletionCallbackUserData" ANARI_VOID_POINTER memEx
        = ({ frameEx with m_continuationPtr := memEx.addr }, none)
      ∧ OspOp.invoke frameEx.m_continuation memEx.addr 500 600
          ∈ (Frame.render engineEx false 500 600
              (Frame.setParam frameEx "frameCompletionCallbackUserData"
                ANARI_VOID_POINTER memEx).1).2) :=
  ⟨by decide, frame_C1 frameEx memEx engineEx false 500 600 (by decide)⟩

/-- Counterexample to claim C2: on a frame whose task handle is null
(`m_future = 0`), a "variance" float property query does NOT query the
buffer handle and succeed; it falls through to the generic property
handling of the `Object` base class, performing no engine call. -/
theorem frame_C2_counterexample :
    frameEx.m_future = 0
    ∧ Frame.getProperty engineEx frameEx "variance" ANARI_FLOAT32 0
        = (PropResult.base, [OspOp.baseGetProperty "variance"])
    ∧ (Frame.getProperty engineEx frameEx "variance" ANARI_FLOAT32 0).1
        ≠ PropResult.written (engineEx.getVariance frameEx.m_object) :=
  ⟨rfl, rfl, by decide⟩

/-- Claim C2 as amended: whenever the task handle is non-null, the
"variance" float query succeeds and reads its value from the buffer handle
(`m_object`) rather than from the task handle; the non-null task handle is
still required by the guard. -/
theorem frame_C2 (E : OspEngine) (s : Frame) (flags : Nat) (hf : s.m_future ≠ 0) :
    Frame.getProperty E s "variance" ANARI_FLOAT32 flags
      = (PropResult.written (E.getVariance s.m_object),
         (if flags &&& ANARI_WAIT ≠ 0 then [OspOp.wait s.m_future] else [])
           ++ [OspOp.getVariance s.m_object]) := by
  unfold Frame.getProperty
  rw [if_neg (fun hh => absurd hh.1 (by decide)),
    if_neg (fun hh => absurd hh.1 (by decide)),
    if_pos ⟨rfl, rfl, hf⟩]

/-- Witness for the amended C2 at concrete inputs. -/
theorem frame_C2_witness :
    frameLive.m_future ≠ 0
    ∧ Frame.getProperty engineEx frameLive "variance" ANARI_FLOAT32 0
        = (PropResult.written (engineEx.getVariance frameLive.m_object),
           (if (0 : Nat) &&& ANARI_WAIT ≠ 0 then [OspOp.wait frameLive.m_future] else [])
             ++ [OspOp.getVariance frameLive.m_object]) :=
  ⟨by decide, frame_C2 engineEx frameLive 0 (by decide)⟩

/-- Claim C3: setting "channel.albedo" (resp. "channel.normal") with
declared type `ANARI_DATA_TYPE` and an element type other than
`ANARI_FLOAT32_VEC3` throws the unsupported-type error and leaves the
state — in particular `m_reconstructOnCommit` — completely unchanged. -/
theorem frame_C3 (s : Frame) (mem : Mem) (h : mem.ints 0 ≠ ANARI_FLOAT32_VEC3) :
    Frame.setParam s "channel.albedo" ANARI_DATA_TYPE mem
      = (s, some "Unsupported albedo type.")
    ∧ Frame.setParam s "channel.normal" ANARI_DATA_TYPE mem
      = (s, some "Unsupported normal type.") := by
  constructor
  · unfold Frame.setParam
    rw [show legacyChannelName "channel.albedo" = "channel.albedo" from rfl]
    unfold Frame.setParamDispatch
    rw [if_neg (by decide), if_neg (by decide), if_neg (by decide),
      if_pos (by decide), if_neg h]
  · unfold Frame.setParam
    rw [show legacyChannelName "channel.normal" = "channel.normal" from rfl]
    unfold Frame.setParamDispatch
    rw [if_neg (by decide), if_neg (by decide), if_neg (by decide), if_neg (by decide),
      if_pos (by decide), if_neg h]

/-- Witness for C3 at concrete inputs. -/
theorem frame_C3_witness :
    memBad.ints 0 ≠ ANARI_FLOAT32_VEC3
    ∧ (Frame.setParam frameEx "channel.albedo" ANARI_DATA_TYPE memBad
        = (frameEx, some "Unsupported albedo type.")
      ∧ Frame.setParam frameEx "channel.normal" ANARI_DATA_TYPE memBad
        = (frameEx, some "Unsupported normal type.")) :=
  ⟨by decide, frame_C3 frameEx memBad (by decide)⟩

/-- Claim C6: the first commit consumes and clears `m_reconstructOnCommit`,
so a second commit with no intervening parameter change performs no engine
buffer-create call — its trace is just the base-class commit. -/
theorem frame_C6 (E : OspEngine) (s : Frame) :
    (Frame.commit E s).1.m_reconstructOnCommit = false
    ∧ (Frame.commit E (Frame.commit E s).1).2 = [OspOp.baseCommit] := by
  by_cases h : s.m_reconstructOnCommit <;>
    simp [Frame.commit, Frame.constructHandle, h]

/-- Claim C4: every `render` call first releases the previous task handle
(its trace starts with that release), resets the buffer's accumulation
state exactly when the device reports unflushed modifications, and then
submits the render task with (buffer, renderer, camera, world) handles,
storing the returned task handle — in that order, so the old task handle
is released before being replaced. -/
theorem frame_C4 (E : OspEngine) (dm : Bool) (d self : Nat) (s : Frame)
    (hr : s.m_renderer ≠ 0) (hc : s.m_camera ≠ 0) (hw : s.m_world ≠ 0) :
    (Frame.render E dm d self s).2.head? = some (OspOp.release s.m_future)
    ∧ ((OspOp.resetAccum s.m_object ∈ (Frame.render E dm d self s).2) ↔ dm = true)
    ∧ (Frame.render E dm d self s).1.m_future
        = E.renderFrame s.m_object (E.handleOf s.m_renderer) (E.handleOf s.m_camera)
            (E.handleOf s.m_world)
    ∧ ([OspOp.release s.m_future]
        ++ (if dm then [OspOp.resetAccum s.m_object] else [])
        ++ [OspOp.renderFrame s.m_object (E.handleOf s.m_renderer)
              (E.handleOf s.m_camera) (E.handleOf s.m_world)
              (E.renderFrame s.m_object (E.handleOf s.m_renderer)
                (E.handleOf s.m_camera) (E.handleOf s.m_world))]).Sublist
        (Frame.render E dm d self s).2 := by
  unfold Frame.render
  by_cases hk : s.m_continuation ≠ 0 <;> cases dm <;>
    simp [hk, List.sublist_append_left]

/-- Witness for C4 at concrete inputs. -/
theorem frame_C4_witness :
    frameEx.m_renderer ≠ 0 ∧ frameEx.m_camera ≠ 0 ∧ frameEx.m_world ≠ 0
    ∧ ((Frame.render engineEx true 500 600 frameEx).2.head?
          = some (OspOp.release frameEx.m_future)
      ∧ ((OspOp.resetAccum frameEx.m_object
            ∈ (Frame.render engineEx true 500 600 frameEx).2) ↔ true = true)
      ∧ (Frame.render engineEx true 500 600 frameEx).1.m_future
          = engineEx.renderFrame frameEx.m_object (engineEx.handleOf frameEx.m_renderer)
              (engineEx.handleOf frameEx.m_camera) (engineEx.handleOf frameEx.m_world)
      ∧ ([OspOp.release frameEx.m_future]
          ++ (if (true : Bool) then [OspOp.resetAccum frameEx.m_object] else [])
          ++ [OspOp.renderFrame frameEx.m_object (engineEx.handleOf frameEx.m_renderer)
                (engineEx.handleOf frameEx.m_camera) (engineEx.handleOf frameEx.m_world)
                (engineEx.renderFrame frameEx.m_object (engineEx.handleOf frameEx.m_renderer)
                  (engineEx.handleOf frameEx.m_camera)
                  (engineEx.handleOf frameEx.m_world))]).Sublist
          (Frame.render engineEx true 500 600 frameEx).2) :=
  ⟨by decide, by decide, by decide,
   frame_C4 engineEx true 500 600 frameEx (by decide) (by decide) (by decide)⟩

/-- Claim C5: a commit with `m_reconstructOnCommit` set releases the old
buffer and creates a new one with the current width, height and format,
and the channel mask passed to the engine is exactly
\x7bcolor, accumulation, variance\x7d together with precisely the enabled
optional channels (depth, normal, albedo) — no other bits. -/
theorem frame_C5 (E : OspEngine) (s : Frame) (h : s.m_reconstructOnCommit = true) :
    (Frame.commit E s).2
      = [OspOp.release s.m_object,
         OspOp.newFrameBuffer s.m_size_x s.m_size_y s.m_format (Frame.channels s)
           (E.newFrameBuffer s.m_size_x s.m_size_y s.m_format (Frame.channels s)),
         OspOp.baseCommit]
    ∧ (Frame.commit E s).1.m_object
        = E.newFrameBuffer s.m_size_x s.m_size_y s.m_format (Frame.channels s)
    ∧ ((Frame.channels s).testBit 0 = true
      ∧ (Frame.channels s).testBit 2 = true
      ∧ (Frame.channels s).testBit 3 = true
      ∧ (Frame.channels s).testBit 1 = s.m_depthBuffer
      ∧ (Frame.channels s).testBit 4 = s.m_normalBuffer
      ∧ (Frame.channels s).testBit 5 = s.m_albedoBuffer
      ∧ Frame.channels s < 64) := by
  refine ⟨?_, ?_, ?_⟩
  · simp [Frame.commit, Frame.constructHandle, h]
  · simp [Frame.commit, Frame.constructHandle, h]
  · unfold Frame.channels
    cases hd : s.m_depthBuffer <;> cases hn : s.m_normalBuffer <;>
      cases ha : s.m_albedoBuffer <;> decide

/-- Witness for C5 at concrete inputs. -/
theorem frame_C5_witness :
    frameDirty.m_reconstructOnCommit = true
    ∧ ((Frame.commit engineEx frameDirty).2
        = [OspOp.release frameDirty.m_object,
           OspOp.newFrameBuffer frameDirty.m_size_x frameDirty.m_size_y
             frameDirty.m_format (Frame.channels frameDirty)
             (engineEx.newFrameBuffer frameDirty.m_size_x frameDirty.m_size_y
               frameDirty.m_format (Frame.channels frameDirty)),
           OspOp.baseCommit]
      ∧ (Frame.commit engineEx frameDirty).1.m_object
          = engineEx.newFrameBuffer frameDirty.m_size_x frameDirty.m_size_y
              frameDirty.m_format (Frame.channels frameDirty)
      ∧ ((Frame.channels frameDirty).testBit 0 = true
        ∧ (Frame.channels frameDirty).testBit 2 = true
        ∧ (Frame.channels frameDirty).testBit 3 = true
        ∧ (Frame.channels frameDirty).testBit 1 = frameDirty.m_depthBuffer
        ∧ (Frame.channels frameDirty).testBit 4 = frameDirty.m_normalBuffer
        ∧ (Frame.channels frameDirty).testBit 5 = frameDirty.m_albedoBuffer
        ∧ Frame.channels frameDirty < 64)) :=
  ⟨by decide, frame_C5 engineEx frameDirty (by decide)⟩

/-- Claim C7: when a completion callback is registered, the render trace
contains — in this order — the task submission, the blocking wait for its
completion, the extra strong reference, the thread start, the callback
invocation with (userData, deviceHandle, targetHandle), and the release of
the extra reference; and the callback is invoked exactly once. -/
theorem frame_C7 (E : OspEngine) (dm : Bool) (d self : Nat) (s : Frame)
    (hk : s.m_continuation ≠ 0) :
    ([OspOp.renderFrame s.m_object (E.handleOf s.m_renderer) (E.handleOf s.m_camera)
        (E.handleOf s.m_world)
        (E.renderFrame s.m_object (E.handleOf s.m_renderer) (E.handleOf s.m_camera)
          (E.handleOf s.m_world)),
      OspOp.wait (E.renderFrame s.m_object (E.handleOf s.m_renderer)
        (E.handleOf s.m_camera) (E.handleOf s.m_world)),
      OspOp.refInc, OspOp.threadStart,
      OspOp.invoke s.m_continuation s.m_continuationPtr d self,
      OspOp.refDec]).Sublist (Frame.render E dm d self s).2
    ∧ (Frame.render E dm d self s).2.countP OspOp.isInvoke = 1 := by
  constructor
  · cases dm <;> simp only [Frame.render, if_pos hk, ite_true, ite_false,
      Bool.false_eq_true, if_true, if_false, List.cons_append, List.nil_append,
      List.append_assoc]
    · exact List.Sublist.cons _ (List.Sublist.refl _)
    · exact List.Sublist.cons _ (List.Sublist.cons _ (List.Sublist.refl _))
  · cases dm <;>
      simp [Frame.render, hk, OspOp.isInvoke, List.countP_cons, List.countP_append]

/-- Witness for C7 at concrete inputs. -/
theorem frame_C7_witness :
    frameEx.m_continuation ≠ 0
    ∧ (([OspOp.renderFrame frameEx.m_object (engineEx.handleOf frameEx.m_renderer)
          (engineEx.handleOf frameEx.m_camera) (engineEx.handleOf frameEx.m_world)
          (engineEx.renderFrame frameEx.m_object (engineEx.handleOf frameEx.m_renderer)
            (engineEx.handleOf frameEx.m_camera) (engineEx.handleOf frameEx.m_world)),
        OspOp.wait (engineEx.renderFrame frameEx.m_object
          (engineEx.handleOf frameEx.m_renderer) (engineEx.handleOf frameEx.m_camera)
          (engineEx.handleOf frameEx.m_world)),
        OspOp.refInc, OspOp.threadStart,
        OspOp.invoke frameEx.m_continuation frameEx.m_continuationPtr 500 600,
        OspOp.refDec]).Sublist (Frame.render engineEx false 500 600 frameEx).2
      ∧ (Frame.render engineEx false 500 600 frameEx).2.countP OspOp.isInvoke = 1) :=
  ⟨by decide, frame_C7 engineEx false 500 600 frameEx (by decide)⟩

/-- Claim C8: for every recognized parameter name, a call whose declared
type tag mismatches the expected tag takes no specialized branch and is
delegated unchanged to the generic parameter store (no specialized field
and no rebuild flag is touched); and the only calls that raise an error
are "channel.albedo" / "channel.normal" with a matching declared tag but a
non-`ANARI_FLOAT32_VEC3` element type. -/
theorem frame_C8 (s : Frame) (origId : String) (type : Int) (mem : Mem) :
    (∀ t, expectedType (legacyChannelName origId) = some t → type ≠ t →
      Frame.setParam s origId type mem
        = ({ s with baseParams := (origId, type) :: s.baseParams }, none))
    ∧ ((Frame.setParam s origId type mem).2 ≠ none →
      (legacyChannelName origId = "channel.albedo"
          ∨ legacyChannelName origId = "channel.normal")
        ∧ type = ANARI_DATA_TYPE ∧ mem.ints 0 ≠ ANARI_FLOAT32_VEC3) := by
  constructor
  · intro t hexp ht
    by_cases e1 : legacyChannelName origId = "size"
    · rw [e1] at hexp
      have h := (by decide : expectedType "size" = some ANARI_UINT32_VEC2).symm.trans hexp
      injection h with h
      subst h
      exact setParamMismatch_size s origId type mem e1 ht
    by_cases e2 : legacyChannelName origId = "channel.color"
    · rw [e2] at hexp
      have h := (by decide :
        expectedType "channel.color" = some ANARI_DATA_TYPE).symm.trans hexp
      injection h with h
      subst h
      exact setParamMismatch_color s origId type mem e2 ht
    by_cases e3 : legacyChannelName origId = "channel.depth"
    · rw [e3] at hexp
      have h := (by decide :
        expectedType "channel.depth" = some ANARI_DATA_TYPE).symm.trans hexp
      injection h with h
      subst h
      exact setParamMismatch_depth s origId type mem e3 ht
    by_cases e4 : legacyChannelName origId = "channel.albedo"
    · rw [e4] at hexp
      have h := (by decide :
        expectedType "channel.albedo" = some ANARI_DATA_TYPE).symm.trans hexp
      injection h with h
      subst h
      exact setParamMismatch_albedo s origId type mem e4 ht
    by_cases e5 : legacyChannelName origId = "channel.normal"
    · rw [e5] at hexp
      have h := (by decide :
        expectedType "channel.normal" = some ANARI_DATA_TYPE).symm.trans hexp
      injection h with h
      subst h
      exact setParamMismatch_normal s origId type mem e5 ht
    by_cases e6 : legacyChannelName origId = "renderer"
    · rw [e6] at hexp
      have h := (by decide : expectedType "renderer" = some ANARI_RENDERER).symm.trans hexp
      injection h with h
      subst h
      exact setParamMismatch_renderer s origId type mem e6 ht
    by_cases e7 : legacyChannelName origId = "camera"
    · rw [e7] at hexp
      have h := (by decide : expectedType "camera" = some ANARI_CAMERA).symm.trans hexp
      injection h with h
      subst h
      exact setParamMismatch_camera s origId type mem e7 ht
    by_cases e8 : legacyChannelName origId = "world"
    · rw [e8] at hexp
      have h := (by decide : expectedType "world" = some ANARI_WORLD).symm.trans hexp
      injection h with h
      subst h
      exact setParamMismatch_world s origId type mem e8 ht
    by_cases e9 : legacyChannelName origId = "frameCompletionCallback"
    · rw [e9] at hexp
      have h := (by decide : expectedType "frameCompletionCallback"
          = some ANARI_FRAME_COMPLETION_CALLBACK).symm.trans hexp
      injection h with h
      subst h
      exact setParamMismatch_callback s origId type mem e9 ht
    by_cases e10 : legacyChannelName origId = "frameCompletionCallbackUserData"
    · rw [e10] at hexp
      have h := (by decide : expectedType "frameCompletionCallbackUserData"
          = some ANARI_VOID_POINTER).symm.trans hexp
      injection h with h
      subst h
      exact setParamMismatch_userData s origId type mem e10 ht
    · unfold expectedType at hexp
      rw [if_neg e1, if_neg e2, if_neg e3, if_neg e4, if_neg e5, if_neg e6,
        if_neg e7, if_neg e8, if_neg e9, if_neg e10] at hexp
      exact Option.noConfusion hexp
  · intro h
    unfold Frame.setParam at h
    generalize hq : legacyChannelName origId = q at h ⊢
    unfold Frame.setParamDispatch at h
    by_cases c1 : q = "size" ∧ type = ANARI_UINT32_VEC2
    · rw [if_pos c1] at h; exact absurd rfl h
    rw [if_neg c1] at h
    by_cases c2 : q = "channel.color" ∧ type = ANARI_DATA_TYPE
    · rw [if_pos c2] at h; exact absurd rfl h
    rw [if_neg c2] at h
    by_cases c3 : q = "channel.depth" ∧ type = ANARI_DATA_TYPE
    · rw [if_pos c3] at h; exact absurd rfl h
    rw [if_neg c3] at h
    by_cases c4 : q = "channel.albedo" ∧ type = ANARI_DATA_TYPE
    · rw [if_pos c4] at h
      by_cases c4a : mem.ints 0 = ANARI_FLOAT32_VEC3
      · rw [if_pos c4a] at h; exact absurd rfl h
      · exact ⟨Or.inl c4.1, c4.2, c4a⟩
    rw [if_neg c4] at h
    by_cases c5 : q = "channel.normal" ∧ type = ANARI_DATA_TYPE
    · rw [if_pos c5] at h
      by_cases c5a : mem.ints 0 = ANARI_FLOAT32_VEC3
      · rw [if_pos c5a] at h; exact absurd rfl h
      · exact ⟨Or.inr c5.1, c5.2, c5a⟩
    rw [if_neg c5] at h
    by_cases c6 : q = "renderer" ∧ type = ANARI_RENDERER
    · rw [if_pos c6] at h; exact absurd rfl h
    rw [if_neg c6] at h
    by_cases c7 : q = "camera" ∧ type = ANARI_CAMERA
    · rw [if_pos c7] at h; exact absurd rfl h
    rw [if_neg c7] at h
    by_cases c8 : q = "world" ∧ type = ANARI_WORLD
    · rw [if_pos c8] at h; exact absurd rfl h
    rw [if_neg c8] at h
    by_cases c9 : q = "frameCompletionCallback" ∧ type = ANARI_FRAME_COMPLETION_CALLBACK
    · rw [if_pos c9] at h; exact absurd rfl h
    rw [if_neg c9] at h
    by_cases c10 : q = "frameCompletionCallbackUserData" ∧ type = ANARI_VOID_POINTER
    · rw [if_pos c10] at h; exact absurd rfl h
    rw [if_neg c10] at h
    exact absurd rfl h

/-- Witness for C8 at concrete inputs: a mismatched "size" call is
delegated, and a bad-element-type "albedo" call errors with the expected
provenance. -/
theorem frame_C8_witness :
    expectedType (legacyChannelName "size") = some ANARI_UINT32_VEC2
    ∧ ANARI_FLOAT32 ≠ ANARI_UINT32_VEC2
    ∧ Frame.setParam frameEx "size" ANARI_FLOAT32 memEx
        = ({ frameEx with baseParams := ("size", ANARI_FLOAT32) :: frameEx.baseParams },
           none)
    ∧ (Frame.setParam frameEx "albedo" ANARI_DATA_TYPE memBad).2 ≠ none
    ∧ ((legacyChannelName "albedo" = "channel.albedo"
          ∨ legacyChannelName "albedo" = "channel.normal")
        ∧ ANARI_DATA_TYPE = ANARI_DATA_TYPE ∧ memBad.ints 0 ≠ ANARI_FLOAT32_VEC3) :=
  ⟨by decide, by decide,
   (frame_C8 frameEx "size" ANARI_FLOAT32 memEx).1 ANARI_UINT32_VEC2 (by decide) (by decide),
   by decide,
   (frame_C8 frameEx "albedo" ANARI_DATA_TYPE memBad).2 (by decide)⟩

/-- Counterexample to claim C9: mapping an unrecognized channel name does
return a null pointer, but the width and height output parameters ARE
written (with the current size) before the name check, so they are not
left unwritten as the claim states. -/
theorem frame_C9_counterexample :
    (Frame.map engineEx frameEx "bogus").1.ptr = 0
    ∧ (Frame.map engineEx frameEx "bogus").1.widthOut = some 64
    ∧ (Frame.map engineEx frameEx "bogus").1.heightOut = some 48 :=
  ⟨rfl, rfl, rfl⟩

/-- Claim C9 as amended: for every channel name that does not resolve
(after legacy rewriting) to one of the four recognized channels, `map`
returns a null pointer, performs no engine call and mutates no target
state, writes the current width and height through the output parameters,
and leaves only the pixel-type output unwritten. -/
theorem frame_C9 (E : OspEngine) (s : Frame) (chan : String)
    (h1 : legacyChannelName chan ≠ "channel.color")
    (h2 : legacyChannelName chan ≠ "channel.depth")
    (h3 : legacyChannelName chan ≠ "channel.albedo")
    (h4 : legacyChannelName chan ≠ "channel.normal") :
    Frame.map E s chan
      = ({ ptr := 0, widthOut := some s.m_size_x, heightOut := some s.m_size_y,
           pixelTypeOut := none }, []) := by
  unfold Frame.map
  rw [if_neg h1, if_neg h2, if_neg h3, if_neg h4]

/-- Witness for the amended C9 at concrete inputs. -/
theorem frame_C9_witness :
    legacyChannelName "bogus" ≠ "channel.color"
    ∧ legacyChannelName "bogus" ≠ "channel.depth"
    ∧ legacyChannelName "bogus" ≠ "channel.albedo"
    ∧ legacyChannelName "bogus" ≠ "channel.normal"
    ∧ Frame.map engineEx frameEx "bogus"
        = ({ ptr := 0, widthOut := some frameEx.m_size_x,
             heightOut := some frameEx.m_size_y, pixelTypeOut := none }, []) :=
  ⟨by decide, by decide, by decide, by decide,
   frame_C9 engineEx frameEx "bogus" (by decide) (by decide) (by decide) (by decide)⟩

/-- No public operation ever clears an enabled depth channel flag. -/
lemma stepDepthMono (E : OspEngine) (s : Frame) (op : FrameOp)
    (h : s.m_depthBuffer = true) : (Frame.step E s op).m_depthBuffer = true := by
  cases op with
  | setP id t m =>
      show (Frame.setParam s id t m).1.m_depthBuffer = true
      unfold Frame.setParam Frame.setParamDispatch
      simp only [apply_ite (fun p : Frame × Option String => p.1.m_depthBuffer)]
      simp [h]
  | commit =>
      show (Frame.commit E s).1.m_depthBuffer = true
      by_cases hr : s.m_reconstructOnCommit <;>
        simp [Frame.commit, Frame.constructHandle, hr, h]
  | render dm d self =>
      show (Frame.render E dm d self s).1.m_depthBuffer = true
      simpa [Frame.render] using h
  | map _ => exact h
  | unmap _ => exact h
  | getProperty _ _ _ => exact h

/-- No public operation ever clears an enabled normal channel flag. -/
lemma stepNormalMono (E : OspEngine) (s : Frame) (op : FrameOp)
    (h : s.m_normalBuffer = true) : (Frame.step E s op).m_normalBuffer = true := by
  cases op with
  | setP id t m =>
      show (Frame.setParam s id t m).1.m_normalBuffer = true
      unfold Frame.setParam Frame.setParamDispatch
      simp only [apply_ite (fun p : Frame × Option String => p.1.m_normalBuffer)]
      simp [h]
  | commit =>
      show (Frame.commit E s).1.m_normalBuffer = true
      by_cases hr : s.m_reconstructOnCommit <;>
        simp [Frame.commit, Frame.constructHandle, hr, h]
  | render dm d self =>
      show (Frame.render E dm d self s).1.m_normalBuffer = true
      simpa [Frame.render] using h
  | map _ => exact h
  | unmap _ => exact h
  | getProperty _ _ _ => exact h

/-- No public operation ever clears an enabled albedo channel flag. -/
lemma stepAlbedoMono (E : OspEngine) (s : Frame) (op : FrameOp)
    (h : s.m_albedoBuffer = true) : (Frame.step E s op).m_albedoBuffer = true := by
  cases op with
  | setP id t m =>
      show (Frame.setParam s id t m).1.m_albedoBuffer = true
      unfold Frame.setParam Frame.setParamDispatch
      simp only [apply_ite (fun p : Frame × Option String => p.1.m_albedoBuffer)]
      simp [h]
  | commit =>
      show (Frame.commit E s).1.m_albedoBuffer = true
      by_cases hr : s.m_reconstructOnCommit <;>
        simp [Frame.commit, Frame.constructHandle, hr, h]
  | render dm d self =>
      show (Frame.render E dm d self s).1.m_albedoBuffer = true
      simpa [Frame.render] using h
  | map _ => exact h
  | unmap _ => exact h
  | getProperty _ _ _ => exact h

/-- Claim C10: channel enablement is monotone — once the depth, normal or
albedo flag is true, no sequence of public operations (setParam, commit,
render, map, unmap, getProperty) ever makes it false again. -/
theorem frame_C10 (E : OspEngine) (s : Frame) (ops : List FrameOp) :
    (s.m_depthBuffer = true → (Frame.run E s ops).m_depthBuffer = true)
    ∧ (s.m_normalBuffer = true → (Frame.run E s ops).m_normalBuffer = true)
    ∧ (s.m_albedoBuffer = true → (Frame.run E s ops).m_albedoBuffer = true) := by
  refine ⟨?_, ?_, ?_⟩
  · intro h
    induction ops generalizing s with
    | nil => exact h
    | cons op rest ih => exact ih _ (stepDepthMono E s op h)
  · intro h
    induction ops generalizing s with
    | nil => exact h
    | cons op rest ih => exact ih _ (stepNormalMono E s op h)
  · intro h
    induction ops generalizing s with
    | nil => exact h
    | cons op rest ih => exact ih _ (stepAlbedoMono E s op h)

/-- Witness for C10 at concrete inputs. -/
theorem frame_C10_witness :
    frameDirty.m_depthBuffer = true
    ∧ frameDirty.m_normalBuffer = true
    ∧ frameDirty.m_albedoBuffer = true
    ∧ (Frame.run engineEx frameDirty opsEx).m_depthBuffer = true
    ∧ (Frame.run engineEx frameDirty opsEx).m_normalBuffer = true
    ∧ (Frame.run engineEx frameDirty opsEx).m_albedoBuffer = true :=
  ⟨rfl, rfl, rfl,
   (frame_C10 engineEx frameDirty opsEx).1 rfl,
   (frame_C10 engineEx frameDirty opsEx).2.1 rfl,
   (frame_C10 engineEx frameDirty opsEx).2.2 rfl⟩
